import Mathlib

/-!
# Verification of the game-gui rendering demo (src/src/main.cpp)

Shallow embedding of the pure computations of the program: the surface
scaling policy (`GameArt::scale_src_to_win`, `GameArt::center_src_in_win`),
the CLI window-geometry parsing (`WindowInfo::WindowInfo`), the spinner
circle-point generation (`RatCircle::Spinner::calc_circle_points`) and its
counter/phase dynamics, the blob radius clamping, and the quadratic Bezier
basis-matrix evaluation (`BezierCurves`).

C `int` arithmetic is embedded as `Int` with truncating division
(`Int.tdiv`, C semantics); `uint8_t`/`uint16_t` arithmetic is embedded as
`Nat` arithmetic modulo 256 / 65536; `float` arithmetic on values produced
by exact operations is embedded as exact `ℚ` arithmetic.
-/

/-- SDL_Rect: a rectangle with integer position and size. -/
structure SDLRect where
  x : Int
  y : Int
  w : Int
  h : Int
deriving DecidableEq, Repr

namespace GameArt

/-- `GameArt::scale` (source sets `scale = 80`). -/
def scale : Int := 80

/-- `GameArt::rect = {0, 0, scale*16, scale*9}` — the fixed 16:9 art surface. -/
def rect : SDLRect := { x := 0, y := 0, w := scale * 16, h := scale * 9 }

/-- `GameArt::center_src_in_win`: center `srcrect` in `winrect`
(C integer division truncates toward zero, hence `Int.tdiv`). -/
def center_src_in_win (winrect srcrect : SDLRect) : SDLRect :=
  { x := (winrect.w - srcrect.w).tdiv 2,
    y := (winrect.h - srcrect.h).tdiv 2,
    w := srcrect.w,
    h := srcrect.h }

/-- `GameArt::scale_src_to_win`: integer ratios of window to art; if either
ratio is 0 return `srcrect` unchanged, else scale by the smaller ratio and
center. -/
def scale_src_to_win (winrect srcrect : SDLRect) : SDLRect :=
  let ratio_w := winrect.w.tdiv srcrect.w
  let ratio_h := winrect.h.tdiv srcrect.h
  if ratio_w = 0 ∨ ratio_h = 0 then srcrect
  else
    let K := if ratio_w > ratio_h then ratio_h else ratio_w
    center_src_in_win winrect { x := 0, y := 0, w := K * srcrect.w, h := K * srcrect.h }

end GameArt

/-- `WindowInfo`: window geometry parsed from the CLI (the `flags` field is
window-system plumbing and carries no data the claims mention). -/
structure WindowInfo where
  x : Int
  y : Int
  w : Int
  h : Int
deriving DecidableEq, Repr

/-- `WindowInfo::WindowInfo(argc, argv)`: defaults `x=50, y=50,
w=1*GameArt::rect.w, h=1*GameArt::rect.h`, each overwritten by the
corresponding positional argument when present (`args` is `argv[1..]`,
already converted to integers as `atoi` does). -/
def WindowInfo.init (args : List Int) : WindowInfo :=
  { x := (args.get? 0).getD 50,
    y := (args.get? 1).getD 50,
    w := (args.get? 2).getD (1 * GameArt.rect.w),
    h := (args.get? 3).getD (1 * GameArt.rect.h) }

namespace RatCircle

/-- `RatCircle::MAX_NUM_POINTS = (1<<9)-3 = 509`. -/
def MAX_NUM_POINTS : Nat := 509

/-- `RatCircle::x(n,d)`: with `t = n/d`, return `(1-t*t)/(1+t*t)`
(the float arithmetic embedded exactly over `ℚ`). -/
def x (n d : Int) : ℚ :=
  let t : ℚ := (n : ℚ) / (d : ℚ)
  (1 - t * t) / (1 + t * t)

/-- `RatCircle::y(n,d)`: with `t = n/d`, return `(2*t)/(1+t*t)`. -/
def y (n d : Int) : ℚ :=
  let t : ℚ := (n : ℚ) / (d : ℚ)
  (2 * t) / (1 + t * t)

/-- The point buffer written by `Spinner::calc_circle_points` before the
final scale-and-offset pass: index `i < N` holds `(x(i,N), y(i,N))` (the
quarter circle), and index `i ≥ N` holds the point `N` indices back rotated
a quarter turn, exactly as the second loop writes it. -/
def circle_point (N : Nat) (i : Nat) : ℚ × ℚ :=
  if _h : i < N ∨ N = 0 then (x i N, y i N)
  else (-(circle_point N (i - N)).2, (circle_point N (i - N)).1)
termination_by i
decreasing_by all_goals omega

/-- The point buffer after `calc_circle_points`'s final pass:
`points[i] = RADIUS * circle_point[i] + center`. -/
def spinner_point (N : Nat) (RADIUS cx cy : ℚ) (i : Nat) : ℚ × ℚ :=
  ((RADIUS * (circle_point N i).1) + cx, (RADIUS * (circle_point N i).2) + cy)

/-- One `counter++` on the `uint16_t` spinner counter. -/
def counter_inc (c : Nat) : Nat := (c + 1) % 65536

/-- One physics tick for a spinner: the inner loop
`for(j=0; j<speed; j++) counter++`. -/
def physics_tick (speed : Nat) (c : Nat) : Nat := counter_inc^[speed] c

/-- The phase read in the render loop: `phase = counter % COUNT`. -/
def phase (counter COUNT : Nat) : Nat := counter % COUNT

/-- The index the trail render actually uses: `phase - j` where
`phase = counter % COUNT` — C `%` on the nonnegative `uint16_t` counter and
positive `COUNT`, then a plain subtraction with no wrap. -/
def trail_index (counter COUNT j : Int) : Int := counter.tmod COUNT - j

/-- The Shift+k handler body for one spinner's radius: `RADIUS++` on a
`uint8_t` (wraps mod 256), then `if (RADIUS > MAX) RADIUS = MAX` with
`int MAX = GameArt::rect.h/2` (the store truncates to `uint8_t`). -/
def radius_step (r : Nat) : Nat :=
  let MAX : Int := GameArt.rect.h.tdiv 2
  let r1 : Nat := (r + 1) % 256
  if (r1 : Int) > MAX then MAX.toNat % 256 else r1

end RatCircle

namespace Blob

/-- The radius-flag handling in the BLOB physics update: if
`flag_smaller`, `radius--` then `if (radius <= 2) radius = 2`; then if
`flag_bigger`, `radius++` then `if (radius >= MAX) radius = MAX` with
`float MAX = GameArt::rect.w/4` (int division, exact here). -/
def tick_radius (radius : ℚ) (flag_smaller flag_bigger : Bool) : ℚ :=
  let r1 : ℚ := if flag_smaller then
      (if radius - 1 ≤ 2 then 2 else radius - 1) else radius
  let MAX : ℚ := ((GameArt.rect.w.tdiv 4 : Int) : ℚ)
  if flag_bigger then (if r1 + 1 ≥ MAX then MAX else r1 + 1) else r1

end Blob

namespace BezierCurves

/-- `BezierCurves::K = 128`: number of curve samples. -/
def K : Nat := 128

/-- `Pmatrix`: degree-2 Bernstein polynomial coefficients, rows
`B_02 = {1,-2,1}`, `B_12 = {0,2,-2}`, `B_22 = {0,0,1}`. -/
def Pmat : Nat → Nat → ℚ
  | 0, 0 => 1
  | 0, 1 => -2
  | 0, 2 => 1
  | 1, 0 => 0
  | 1, 1 => 2
  | 1, 2 => -2
  | 2, 0 => 0
  | 2, 1 => 0
  | 2, 2 => 1
  | _, _ => 0

/-- `Tmatrix`: row `j`, column `k` holds `t^j` at `t = k/K`. -/
def Tmat (j k : Nat) : ℚ :=
  let t : ℚ := (k : ℚ) / (K : ℚ)
  match j with
  | 0 => 1
  | 1 => t
  | 2 => t * t
  | _ => 0

/-- `calc_Bmatrix`: `B[i][k] = Σ_j P[i][j] * T[j][k]` (the `j` loop of the
matrix multiplication, unrolled over `j = 0,1,2`, starting from the
zero-initialized `Bmatrix`). -/
def Bmatrix (i k : Nat) : ℚ :=
  0 + Pmat i 0 * Tmat 0 k + Pmat i 1 * Tmat 1 k + Pmat i 2 * Tmat 2 k

/-- `dCB_curve_points`, one output sample: `points[k]` starts at `{0,0}`
and accumulates `control_points[j] * Bmatrix[j][k]` for `j = 0,1,2`. -/
def dCB_curve_point (p0 p1 p2 : ℚ × ℚ) (k : Nat) : ℚ × ℚ :=
  (0 + p0.1 * Bmatrix 0 k + p1.1 * Bmatrix 1 k + p2.1 * Bmatrix 2 k,
   0 + p0.2 * Bmatrix 0 k + p1.2 * Bmatrix 1 k + p2.2 * Bmatrix 2 k)

/-- Method 1 (direct de Casteljau) at parameter `t`: `Q0` interpolates
`(P0,P1)`, `Q1` interpolates `(P1,P2)`, the result interpolates `(Q0,Q1)`. -/
def deCasteljau_point (p0 p1 p2 : ℚ × ℚ) (t : ℚ) : ℚ × ℚ :=
  let q0 : ℚ × ℚ := ((1 - t) * p0.1 + t * p1.1, (1 - t) * p0.2 + t * p1.2)
  let q1 : ℚ × ℚ := ((1 - t) * p1.1 + t * p2.1, (1 - t) * p1.2 + t * p2.2)
  ((1 - t) * q0.1 + t * q1.1, (1 - t) * q0.2 + t * q1.2)

end BezierCurves

/-! ## Helper lemmas -/

/-- Truncating division of nonnegative integers, multiplied back, does not
exceed the dividend. -/
theorem tdiv_mul_le_self {a b : Int} (ha : 0 ≤ a) (hb : 0 < b) :
    a.tdiv b * b ≤ a := by
  rw [Int.tdiv_eq_ediv ha (le_of_lt hb)]
  exact Int.ediv_mul_le a (ne_of_gt hb)

/-- The truncating quotient is at least 1 when the dividend is at least the
(positive) divisor. -/
theorem one_le_tdiv {a b : Int} (hb : 0 < b) (hba : b ≤ a) : 1 ≤ a.tdiv b := by
  rw [Int.tdiv_eq_ediv (le_trans (le_of_lt hb) hba) (le_of_lt hb)]
  exact (Int.le_ediv_iff_mul_le hb).2 (by linarith)

/-- First circle point at resolution `N = 1`: parameter `t = 0` gives `(1, 0)`. -/
theorem circle_point_res1_idx0 : RatCircle.circle_point 1 0 = (1, 0) := by
  rw [RatCircle.circle_point]
  norm_num [RatCircle.x, RatCircle.y]

/-- Second circle point at resolution `N = 1`: the first point rotated a
quarter turn, `(0, 1)`. -/
theorem circle_point_res1_idx1 : RatCircle.circle_point 1 1 = (0, 1) := by
  rw [RatCircle.circle_point]
  norm_num [circle_point_res1_idx0]

/-! ## Claim theorems -/

/-- C2: for `artRect = {0,0,320,180}` and `displayRect = {0,0,1000,500}`,
the width ratio is 3, the height ratio is 2, and `scale_src_to_win` returns
the centered destination rectangle `{180, 70, 640, 360}`. -/
theorem scale_src_to_win_scenario_320x180_in_1000x500 :
    (1000 : Int).tdiv 320 = 3 ∧ (500 : Int).tdiv 180 = 2 ∧
    GameArt.scale_src_to_win ⟨0, 0, 1000, 500⟩ ⟨0, 0, 320, 180⟩ =
      ⟨180, 70, 640, 360⟩ := by decide

/-- C1 counterexample: a 1-by-1 display (which satisfies `displayW ≥ 1` and
`displayH ≥ 1`) makes `scale_src_to_win` return the unscaled 1280-by-720 art
rectangle, which is wider and taller than the display. -/
theorem scale_src_to_win_small_display_cex :
    ¬ ((GameArt.scale_src_to_win ⟨0, 0, 1, 1⟩ GameArt.rect).w ≤ 1 ∧
       (GameArt.scale_src_to_win ⟨0, 0, 1, 1⟩ GameArt.rect).h ≤ 1) := by decide

/-- C1 amended: when the display is at least as wide and tall as the
1280-by-720 art rectangle, `scale_src_to_win` returns a rectangle whose
width and height never exceed the display's; the undersized case instead
returns the art rectangle unchanged. -/
theorem scale_src_to_win_fits_when_display_at_least_art (winrect : SDLRect)
    (hw : GameArt.rect.w ≤ winrect.w) (hh : GameArt.rect.h ≤ winrect.h) :
    (GameArt.scale_src_to_win winrect GameArt.rect).w ≤ winrect.w ∧
    (GameArt.scale_src_to_win winrect GameArt.rect).h ≤ winrect.h := by
  have e1 : GameArt.rect.w = 1280 := by decide
  have e2 : GameArt.rect.h = 720 := by decide
  rw [e1] at hw
  rw [e2] at hh
  have h1w : 1 ≤ winrect.w.tdiv 1280 := one_le_tdiv (by norm_num) hw
  have h1h : 1 ≤ winrect.h.tdiv 720 := one_le_tdiv (by norm_num) hh
  have hmw : winrect.w.tdiv 1280 * 1280 ≤ winrect.w :=
    tdiv_mul_le_self (by linarith) (by norm_num)
  have hmh : winrect.h.tdiv 720 * 720 ≤ winrect.h :=
    tdiv_mul_le_self (by linarith) (by norm_num)
  have hne : ¬ (winrect.w.tdiv 1280 = 0 ∨ winrect.h.tdiv 720 = 0) := by
    rintro (h0 | h0)
    · rw [h0] at h1w; exact absurd h1w (by norm_num)
    · rw [h0] at h1h; exact absurd h1h (by norm_num)
  simp only [GameArt.scale_src_to_win, GameArt.center_src_in_win, e1, e2]
  rw [if_neg hne]
  dsimp only
  constructor
  · split_ifs with hcmp
    · linarith
    · exact hmw
  · split_ifs with hcmp
    · exact hmh
    · linarith

/-- C1 witness: a 1280-by-720 display satisfies the amended hypotheses and
receives a destination rectangle that fits. -/
theorem scale_src_to_win_fits_when_display_at_least_art_witness :
    (GameArt.scale_src_to_win ⟨0, 0, 1280, 720⟩ GameArt.rect).w ≤ 1280 ∧
    (GameArt.scale_src_to_win ⟨0, 0, 1280, 720⟩ GameArt.rect).h ≤ 720 :=
  scale_src_to_win_fits_when_display_at_least_art ⟨0, 0, 1280, 720⟩
    (by decide) (by decide)

/-- C3: the increase-radius handler's clamp maximum is
`GameArt::rect.h/2 = 360`, which no `uint8_t` value can exceed, so the
clamp never fires and one more press at `RADIUS = 255` wraps the radius to
0 instead of holding it at the maximum. -/
theorem radius_step_overflows_at_255 :
    GameArt.rect.h.tdiv 2 = 360 ∧ RatCircle.radius_step 255 = 0 := by decide

/-- C4: at phase `counter % COUNT = 0` (here `counter = 0`, `COUNT = 508`)
and trail offset `j = 1`, the index the render loop uses to read the point
buffer is `-1` — outside `[0, COUNT)`, with no wrap to the buffer's end. -/
theorem trail_index_negative_at_phase_zero :
    RatCircle.trail_index 0 508 1 = -1 ∧ RatCircle.trail_index 0 508 1 < 0 := by
  decide

/-- C5: for any 3 control points and any sample index `k < K`, the
basis-matrix curve point equals the direct de Casteljau evaluation at
`t = k/K` (exactly, over `ℚ`). -/
theorem dCB_curve_point_eq_deCasteljau (p0 p1 p2 : ℚ × ℚ) (k : Nat)
    (_hk : k < BezierCurves.K) :
    BezierCurves.dCB_curve_point p0 p1 p2 k =
      BezierCurves.deCasteljau_point p0 p1 p2 ((k : ℚ) / (BezierCurves.K : ℚ)) := by
  simp only [BezierCurves.dCB_curve_point, BezierCurves.deCasteljau_point,
    BezierCurves.Bmatrix, BezierCurves.Pmat, BezierCurves.Tmat]
  rw [Prod.ext_iff]
  constructor <;> ring

/-- C5 witness: the equivalence at concrete control points and sample 0. -/
theorem dCB_curve_point_eq_deCasteljau_witness :
    BezierCurves.dCB_curve_point (0, 0) (1, 0) (0, 1) 0 =
      BezierCurves.deCasteljau_point (0, 0) (1, 0) (0, 1)
        (((0 : Nat) : ℚ) / (BezierCurves.K : ℚ)) :=
  dCB_curve_point_eq_deCasteljau (0, 0) (1, 0) (0, 1) 0 (by decide)

/-- C6 counterexample: a spinner with `N = 1`, `RADIUS = 1`, center
`(1, 0)` has buffer point 1 not equal to the rotation `(x,y) → (−y,x)` of
buffer point 0 (the final scale-and-offset pass breaks the relation for an
off-origin center). -/
theorem spinner_rotation_cex :
    RatCircle.spinner_point 1 1 1 0 1 ≠
      (-(RatCircle.spinner_point 1 1 1 0 0).2,
        (RatCircle.spinner_point 1 1 1 0 0).1) := by
  simp [RatCircle.spinner_point, circle_point_res1_idx0, circle_point_res1_idx1,
    Prod.ext_iff]

/-- C6 amended: for any resolution `N ≥ 1`, radius and center, and any
`i < 3N`, buffer points `i` and `i+N` are related by the quarter-turn
rotation about the circle's center:
`p[i+N] − center = (−(p[i]−center).y, (p[i]−center).x)`. -/
theorem spinner_rotation_about_center (N : Nat) (R cx cy : ℚ) (i : Nat)
    (hN : 1 ≤ N) (_hi : i < 3 * N) :
    (RatCircle.spinner_point N R cx cy (i + N)).1 - cx =
      -((RatCircle.spinner_point N R cx cy i).2 - cy) ∧
    (RatCircle.spinner_point N R cx cy (i + N)).2 - cy =
      (RatCircle.spinner_point N R cx cy i).1 - cx := by
  have hcond : ¬ (i + N < N ∨ N = 0) := by omega
  have hkey : RatCircle.circle_point N (i + N) =
      (-(RatCircle.circle_point N i).2, (RatCircle.circle_point N i).1) := by
    rw [RatCircle.circle_point, dif_neg hcond, Nat.add_sub_cancel]
  simp only [RatCircle.spinner_point, hkey]
  constructor <;> ring

/-- C6 witness: the rotation-about-center relation at `N = 1`, `RADIUS = 1`,
center `(0,0)`, `i = 0`. -/
theorem spinner_rotation_about_center_witness :
    (RatCircle.spinner_point 1 1 0 0 (0 + 1)).1 - 0 =
      -((RatCircle.spinner_point 1 1 0 0 0).2 - 0) ∧
    (RatCircle.spinner_point 1 1 0 0 (0 + 1)).2 - 0 =
      (RatCircle.spinner_point 1 1 0 0 0).1 - 0 :=
  spinner_rotation_about_center 1 1 0 0 0 (by decide) (by decide)

set_option maxRecDepth 4096 in
/-- C7: a spinner counter starting at 0 with speed 7 reaches 140 after 20
physics ticks, and its phase with `COUNT = 100` is 40. -/
theorem spinner_phase_wrap_scenario :
    (RatCircle.physics_tick 7)^[20] 0 = 140 ∧
    RatCircle.phase ((RatCircle.physics_tick 7)^[20] 0) 100 = 40 := by decide

/-- C8 counterexample: with no CLI arguments, the default window width is
`1*GameArt::rect.w = 1280`, not `2*artWidth = 2560` as claimed. -/
theorem window_default_w_cex :
    (WindowInfo.init []).w ≠ 2 * GameArt.rect.w := by decide

/-- C8 amended: the four positional arguments `x y w h` are all optional
and parsed left-to-right; any unset argument keeps its default
`x=50, y=50, w=1*artWidth, h=1*artHeight`. -/
theorem window_args_left_to_right_defaults (a b c d : Int) (rest : List Int) :
    WindowInfo.init [] = ⟨50, 50, 1 * GameArt.rect.w, 1 * GameArt.rect.h⟩ ∧
    WindowInfo.init [a] = ⟨a, 50, 1 * GameArt.rect.w, 1 * GameArt.rect.h⟩ ∧
    WindowInfo.init [a, b] = ⟨a, b, 1 * GameArt.rect.w, 1 * GameArt.rect.h⟩ ∧
    WindowInfo.init [a, b, c] = ⟨a, b, c, 1 * GameArt.rect.h⟩ ∧
    WindowInfo.init (a :: b :: c :: d :: rest) = ⟨a, b, c, d⟩ :=
  ⟨rfl, rfl, rfl, rfl, rfl⟩

/-- C9: the spinner counter is 16-bit — a physics tick from any
`counter < 2^16` yields `(counter + speed) mod 2^16` — and the phase read
`counter % COUNT` jumps discontinuously across the overflow: with
`COUNT = 508` (which does not divide `2^16`), one tick at speed 7 from
counter 65535 gives phase 6 instead of the continuation
`(phase + 7) % 508 = 10`. -/
theorem counter_wraps_mod_65536 (c s : Nat) (hc : c < 65536) :
    RatCircle.physics_tick s c = (c + s) % 65536 ∧
    RatCircle.phase (RatCircle.physics_tick 7 65535) 508 ≠
      (RatCircle.phase 65535 508 + 7) % 508 := by
  constructor
  · induction s with
    | zero =>
        simpa [RatCircle.physics_tick] using (Nat.mod_eq_of_lt hc).symm
    | succ n ih =>
        simp only [RatCircle.physics_tick] at ih ⊢
        rw [Function.iterate_succ_apply', ih, RatCircle.counter_inc]
        omega
  · decide

/-- C9 witness: the mod-2^16 tick at `counter = 0`, `speed = 1`. -/
theorem counter_wraps_mod_65536_witness :
    RatCircle.physics_tick 1 0 = (0 + 1) % 65536 ∧
    RatCircle.phase (RatCircle.physics_tick 7 65535) 508 ≠
      (RatCircle.phase 65535 508 + 7) % 508 :=
  counter_wraps_mod_65536 0 1 (by decide)

/-- C10: if the blob radius is in `[2, GameArt::rect.w/4]` at the start of
a physics tick, it is still in that range after consuming any combination
of the smaller/bigger flags: the decrement path clamps at 2 and the
increment path clamps at `rect.w/4 = 320`. -/
theorem blob_radius_invariant (r : ℚ) (fs fb : Bool) (h2 : 2 ≤ r)
    (hmax : r ≤ ((GameArt.rect.w.tdiv 4 : Int) : ℚ)) :
    2 ≤ Blob.tick_radius r fs fb ∧
    Blob.tick_radius r fs fb ≤ ((GameArt.rect.w.tdiv 4 : Int) : ℚ) := by
  have hM : ((GameArt.rect.w.tdiv 4 : Int) : ℚ) = 320 := by
    norm_num [show (GameArt.rect.w.tdiv 4 : Int) = 320 from rfl]
  rw [hM] at hmax ⊢
  simp only [Blob.tick_radius, hM]
  split_ifs <;> constructor <;> linarith

/-- C10 witness: both flags consumed at the boundary radius 2. -/
theorem blob_radius_invariant_witness :
    2 ≤ Blob.tick_radius 2 true true ∧
    Blob.tick_radius 2 true true ≤ ((GameArt.rect.w.tdiv 4 : Int) : ℚ) :=
  blob_radius_invariant 2 true true (by norm_num)
    (by norm_num [show (GameArt.rect.w.tdiv 4 : Int) = 320 from rfl])
